import Mathlib

/-!
Shallow embedding of the animated keyboard preview engine of
src/acer-predator-gui/src/gui/components/keyboard_preview.py, together
with the apply-command handler update_from_state.  Python ints are
modelled as Lean integers; Python float arithmetic is modelled over the
rationals, with math.sin abstracted as an arbitrary rational-valued
function bounded by [-1, 1].  Python int() truncation is modelled by
pyInt, Python list indexing (with negative wraparound) by pyIndex.
-/

namespace KeyboardPreview

/-- An RGB color triple with integer channels, embedding QColor(r, g, b). -/
structure RGB where
  r : ℤ
  g : ℤ
  b : ℤ
deriving DecidableEq

/-- All three channels lie in the documented 0..255 range. -/
def RGB.valid (c : RGB) : Prop :=
  0 ≤ c.r ∧ c.r ≤ 255 ∧ 0 ≤ c.g ∧ c.g ≤ 255 ∧ 0 ≤ c.b ∧ c.b ≤ 255

instance RGB.validDecidable (c : RGB) : Decidable c.valid := by
  unfold RGB.valid; infer_instance

/-- Python int() applied to a rational: truncation toward zero. -/
def pyInt (q : ℚ) : ℤ :=
  if 0 ≤ q then ⌊q⌋ else ⌈q⌉

/-- Python list indexing into a list of zone colors: nonnegative indices
read from the front, negative indices wrap from the back.  Out-of-range
reads (which would raise in Python and never occur on valid states) are
modelled as black. -/
def pyIndex (zs : List RGB) (i : ℤ) : RGB :=
  if 0 ≤ i then zs.getD i.toNat ⟨0, 0, 0⟩
  else zs.getD (zs.length - (-i).toNat) ⟨0, 0, 0⟩

/-- QColor.setHsv(h, 255, 255) followed by reading back the RGB channels:
Qt sector-based HSV to RGB conversion at full saturation and value, for a
hue in degrees. -/
def hsvToRgbSat (h : ℕ) : RGB :=
  let f : ℚ := ((h % 60 : ℕ) : ℚ) / 60
  let t : ℤ := round (f * 255)
  let q : ℤ := round ((1 - f) * 255)
  match h / 60 with
  | 0 => ⟨255, t, 0⟩
  | 1 => ⟨q, 255, 0⟩
  | 2 => ⟨0, 255, t⟩
  | 3 => ⟨0, q, 255⟩
  | 4 => ⟨t, 0, 255⟩
  | _ => ⟨255, 0, q⟩

/-- The state a KeyWidget keeps: its zone id and the color/brightness pair
last passed to set_color. -/
structure KeyWidget where
  zone_id : ℤ
  current_color : RGB
  brightness : ℤ
deriving DecidableEq

/-- KeyWidget.set_color: store the color and brightness on the key.  The
rendered background is given separately by renderedColor. -/
def KeyWidget.set_color (k : KeyWidget) (color : RGB) (brightness : ℤ) : KeyWidget :=
  { k with current_color := color, brightness := brightness }

/-- The background color KeyWidget.set_color writes into the stylesheet:
channels scaled by brightness/100 when brightness < 100, and replaced by
dark gray (30, 30, 30) when brightness = 0. -/
def renderedColor (color : RGB) (brightness : ℤ) : RGB :=
  let adjusted : RGB :=
    if brightness < 100 then
      ⟨pyInt ((color.r : ℚ) * ((brightness : ℚ) / 100)),
       pyInt ((color.g : ℚ) * ((brightness : ℚ) / 100)),
       pyInt ((color.b : ℚ) * ((brightness : ℚ) / 100))⟩
    else color
  if brightness = 0 then ⟨30, 30, 30⟩ else adjusted

/-- The mutable state of KeyboardPreviewWidget: animation frame, current
mode/colors/brightness/speed/direction, the key widgets, and the QTimer
(armed flag and interval in milliseconds). -/
structure PreviewState where
  animation_frame : ℕ
  current_mode : ℤ
  current_brightness : ℤ
  current_speed : ℤ
  current_direction : ℤ
  zone_colors : List RGB
  keys : List KeyWidget
  timer_active : Bool
  timer_interval : ℤ
deriving DecidableEq

/-- KeyboardPreviewWidget.update_keys: re-send each key its zone color at
the current brightness (keys with an out-of-range zone are skipped). -/
def update_keys (st : PreviewState) : PreviewState :=
  { st with keys := st.keys.map (fun k =>
      let zone_idx := k.zone_id - 1
      if 0 ≤ zone_idx ∧ zone_idx < 4 then
        k.set_color (pyIndex st.zone_colors zone_idx) st.current_brightness
      else k) }

/-- KeyboardPreviewWidget.update_color: for the modes that support a color
(Static 0, Breathing 1, Shifting 4, Zoom 5) set all four zone colors and
refresh the keys; in any other mode do nothing. -/
def update_color (st : PreviewState) (color : RGB) : PreviewState :=
  if st.current_mode = 0 ∨ st.current_mode = 1 ∨ st.current_mode = 4 ∨ st.current_mode = 5 then
    update_keys { st with
      zone_colors := ((((st.zone_colors.set 0 color).set 1 color).set 2 color).set 3 color) }
  else st

/-- KeyboardPreviewWidget.update_zone_color: set one zone color (zones are
numbered 1..4) and refresh the keys. -/
def update_zone_color (st : PreviewState) (zone : ℤ) (color : RGB) : PreviewState :=
  if 1 ≤ zone ∧ zone ≤ 4 then
    update_keys { st with zone_colors := st.zone_colors.set (zone - 1).toNat color }
  else st

/-- KeyboardPreviewWidget.update_brightness. -/
def update_brightness (st : PreviewState) (brightness : ℤ) : PreviewState :=
  update_keys { st with current_brightness := brightness }

/-- KeyboardPreviewWidget.start_animation: in an animated mode (1..5) start
the timer at 100 ms; otherwise stop it. -/
def start_animation (st : PreviewState) : PreviewState :=
  if st.current_mode = 1 ∨ st.current_mode = 2 ∨ st.current_mode = 3 ∨
      st.current_mode = 4 ∨ st.current_mode = 5 then
    { st with timer_active := true, timer_interval := 100 }
  else
    { st with timer_active := false }

/-- KeyboardPreviewWidget.update_animation_mode: start the timer in an
animated mode, otherwise stop it and refresh the keys once. -/
def update_animation_mode (st : PreviewState) : PreviewState :=
  if st.current_mode = 1 ∨ st.current_mode = 2 ∨ st.current_mode = 3 ∨
      st.current_mode = 4 ∨ st.current_mode = 5 then
    start_animation st
  else
    update_keys { st with timer_active := false }

/-- KeyboardPreviewWidget.update_mode: set the mode, adjust the timer, and
refresh the keys. -/
def update_mode (st : PreviewState) (mode : ℤ) : PreviewState :=
  update_keys (update_animation_mode { st with current_mode := mode })

/-- KeyboardPreviewWidget.update_animation_speed: when the timer is armed,
re-derive its interval from the speed as max(50, 250 - speed*20). -/
def update_animation_speed (st : PreviewState) : PreviewState :=
  if st.timer_active then
    { st with timer_interval := max 50 (250 - st.current_speed * 20) }
  else st

/-- KeyboardPreviewWidget.update_speed: set the speed and re-derive the
timer interval. -/
def update_speed (st : PreviewState) (speed : ℤ) : PreviewState :=
  update_animation_speed { st with current_speed := speed }

/-- KeyboardPreviewWidget.update_direction. -/
def update_direction (st : PreviewState) (direction : ℤ) : PreviewState :=
  { st with current_direction := direction }

/-- KeyboardPreviewWidget.animate_breathing: one breathing step, driven by
the sine model s applied at frame*0.1.  Every key with a valid zone gets
its zone color at brightness int(current_brightness * (sin+1)/2). -/
def animate_breathing (s : ℚ → ℚ) (st : PreviewState) : PreviewState :=
  let brightness_factor : ℚ := (s ((st.animation_frame : ℚ) * (1 / 10)) + 1) / 2
  let effective_brightness : ℤ := pyInt ((st.current_brightness : ℚ) * brightness_factor)
  { st with keys := st.keys.map (fun k =>
      let zone_idx := k.zone_id - 1
      if 0 ≤ zone_idx ∧ zone_idx < 4 then
        k.set_color (pyIndex st.zone_colors zone_idx) effective_brightness
      else k) }

/-- KeyboardPreviewWidget.animate_neon: each key i gets the fully saturated
hue (frame*2 + i*10) mod 360 at the current brightness. -/
def animate_neon (st : PreviewState) : PreviewState :=
  { st with keys := st.keys.enum.map (fun p =>
      let hue := (st.animation_frame * 2 + p.1 * 10) % 360
      p.2.set_color (hsvToRgbSat hue) st.current_brightness) }

/-- The wave position of animate_wave: (frame - zone_idx*10) mod 100 when
direction = 1 (right to left), (frame + zone_idx*10) mod 100 otherwise
(left to right). -/
def wavePos (direction : ℤ) (frame : ℕ) (zone_idx : ℤ) : ℤ :=
  if direction = 1 then ((frame : ℤ) - zone_idx * 10) % 100
  else ((frame : ℤ) + zone_idx * 10) % 100

/-- KeyboardPreviewWidget.animate_wave: per key, brightness follows
(sin(wave_pos*0.1)+1)/2 and the color is the fully saturated hue
(wave_pos*3.6) mod 360. -/
def animate_wave (s : ℚ → ℚ) (st : PreviewState) : PreviewState :=
  { st with keys := st.keys.map (fun k =>
      let zone_idx := k.zone_id - 1
      let wave_pos := wavePos st.current_direction st.animation_frame zone_idx
      let brightness_factor : ℚ := (s ((wave_pos : ℚ) * (1 / 10)) + 1) / 2
      let effective_brightness := pyInt ((st.current_brightness : ℚ) * brightness_factor)
      let hueq : ℚ := (wave_pos : ℚ) * (36 / 10)
      let hue : ℚ := hueq - 360 * ⌊hueq / 360⌋
      k.set_color (hsvToRgbSat (pyInt hue).toNat) effective_brightness) }

/-- KeyboardPreviewWidget.animate_shifting: blend the first zone color with
the cycling hue (frame*2) mod 360 by shift_amount = sin(frame*0.05)*0.5+0.5,
per channel, at the current brightness. -/
def animate_shifting (s : ℚ → ℚ) (st : PreviewState) : PreviewState :=
  let hue := (st.animation_frame * 2) % 360
  let base_color := hsvToRgbSat hue
  let original := pyIndex st.zone_colors 0
  let shift_amount : ℚ := s ((st.animation_frame : ℚ) * (5 / 100)) * (1 / 2) + 1 / 2
  let mix : ℤ → ℤ → ℤ := fun o bc =>
    pyInt ((o : ℚ) * (1 - shift_amount) + (bc : ℚ) * shift_amount)
  { st with keys := st.keys.map (fun k =>
      k.set_color
        ⟨mix original.r base_color.r, mix original.g base_color.g, mix original.b base_color.b⟩
        st.current_brightness) }

/-- The per-channel scaling of animate_zoom: scale by (0.8 + 0.2*zoom_factor)
and clamp with min 255. -/
def zoomChannel (zoom_factor : ℚ) (c : ℤ) : ℤ :=
  min 255 (pyInt ((c : ℚ) * (8 / 10 + 2 / 10 * zoom_factor)))

/-- KeyboardPreviewWidget.animate_zoom: brightness scaled by
(0.3 + 0.7*zoom_factor), channels scaled by (0.8 + 0.2*zoom_factor) and
clamped to 255, with zoom_factor = (sin(frame*0.1)+1)/2. -/
def animate_zoom (s : ℚ → ℚ) (st : PreviewState) : PreviewState :=
  let zoom_factor : ℚ := (s ((st.animation_frame : ℚ) * (1 / 10)) + 1) / 2
  let effective_brightness :=
    pyInt ((st.current_brightness : ℚ) * (3 / 10 + 7 / 10 * zoom_factor))
  { st with keys := st.keys.map (fun k =>
      let base_color := pyIndex st.zone_colors (k.zone_id - 1)
      k.set_color
        ⟨zoomChannel zoom_factor base_color.r,
         zoomChannel zoom_factor base_color.g,
         zoomChannel zoom_factor base_color.b⟩
        effective_brightness) }

/-- KeyboardPreviewWidget.update_animation: one delivered timer tick.  The
frame counter is incremented, then the animation for the current mode (if
any) recomputes the keys. -/
def update_animation (s : ℚ → ℚ) (st : PreviewState) : PreviewState :=
  let st := { st with animation_frame := st.animation_frame + 1 }
  if st.current_mode = 1 then animate_breathing s st
  else if st.current_mode = 2 then animate_neon st
  else if st.current_mode = 3 then animate_wave s st
  else if st.current_mode = 4 then animate_shifting s st
  else if st.current_mode = 5 then animate_zoom s st
  else st

/-- The default Acer green literal (50, 255, 50) used by the preview. -/
def defaultGreen : RGB := ⟨50, 255, 50⟩

/-- KeyboardPreviewWidget.create_keyboard_layout: 8 small keys per zone
followed by one larger key per zone, each sent its zone color at the
given brightness. -/
def initKeys (zone_colors : List RGB) (brightness : ℤ) : List KeyWidget :=
  ((List.range 4).map (fun zone => (List.range 8).map (fun _ =>
      (⟨(zone : ℤ) + 1, pyIndex zone_colors (zone : ℤ), brightness⟩ : KeyWidget)))).flatten
  ++ (List.range 4).map (fun zone =>
      (⟨(zone : ℤ) + 1, pyIndex zone_colors (zone : ℤ), brightness⟩ : KeyWidget))

/-- KeyboardPreviewWidget construction: the field defaults of init followed
by create_keyboard_layout and start_animation. -/
def initState : PreviewState :=
  start_animation {
    animation_frame := 0
    current_mode := 3
    current_brightness := 100
    current_speed := 5
    current_direction := 1
    zone_colors := [defaultGreen, defaultGreen, defaultGreen, defaultGreen]
    keys := initKeys [defaultGreen, defaultGreen, defaultGreen, defaultGreen] 100
    timer_active := false
    timer_interval := 0 }

/-- An apply-command payload: the optional fields of the state dict handed
to update_from_state. -/
structure Payload where
  mode : Option ℤ
  brightness : Option ℤ
  speed : Option ℤ
  direction : Option ℤ
  color : Option RGB
  zone : Option ℤ
deriving DecidableEq

/-- KeyboardPreviewWidget.update_from_state: read each field from the
payload with state.get defaults, route the color through
update_zone_color (static mode) or update_color (other modes), then
re-apply the mode and speed. -/
def update_from_state (st : PreviewState) (p : Payload) : PreviewState :=
  let st1 := { st with
    current_mode := p.mode.getD 3
    current_brightness := p.brightness.getD 100
    current_speed := p.speed.getD 5
    current_direction := p.direction.getD 1 }
  let new_color := p.color.getD defaultGreen
  let st2 :=
    if st1.current_mode = 0 then update_zone_color st1 (p.zone.getD 1) new_color
    else update_color st1 new_color
  let st3 := update_mode st2 st2.current_mode
  update_speed st3 st3.current_speed

/-- The sine model is bounded by [-1, 1], as math.sin is. -/
def sinBounded (s : ℚ → ℚ) : Prop :=
  ∀ x : ℚ, -1 ≤ s x ∧ s x ≤ 1

/-- A concrete admissible sine model, used to instantiate witnesses. -/
def zeroSin : ℚ → ℚ := fun _ => 0

/-- A key is valid when its zone id is 1..4, its stored color channels are
in 0..255 and its stored brightness is in 0..100. -/
def KeyWidget.valid (k : KeyWidget) : Prop :=
  1 ≤ k.zone_id ∧ k.zone_id ≤ 4 ∧ k.current_color.valid ∧
    0 ≤ k.brightness ∧ k.brightness ≤ 100

instance KeyWidget.validDecidable (k : KeyWidget) : Decidable k.valid := by
  unfold KeyWidget.valid; infer_instance

/-- A preview state is valid when brightness is in 0..100, there are exactly
4 zone colors, all of them in range, and every key is valid. -/
def PreviewState.valid (st : PreviewState) : Prop :=
  0 ≤ st.current_brightness ∧ st.current_brightness ≤ 100 ∧
    st.zone_colors.length = 4 ∧ (∀ c ∈ st.zone_colors, c.valid) ∧
    (∀ k ∈ st.keys, k.valid)

instance PreviewState.validDecidable (st : PreviewState) : Decidable st.valid := by
  unfold PreviewState.valid; infer_instance

/-- What a key displays is in range: its brightness is in 0..100, its stored
color channels are in 0..255, and so are the channels of the background
color actually rendered by set_color. -/
def displayedOk (k : KeyWidget) : Prop :=
  0 ≤ k.brightness ∧ k.brightness ≤ 100 ∧ k.current_color.valid ∧
    (renderedColor k.current_color k.brightness).valid

instance displayedOkDecidable (k : KeyWidget) : Decidable (displayedOk k) := by
  unfold displayedOk; infer_instance

lemma pyInt_bounds {q : ℚ} {l u : ℤ} (h1 : (l : ℚ) ≤ q) (h2 : q ≤ (u : ℚ)) :
    l ≤ pyInt q ∧ pyInt q ≤ u := by
  unfold pyInt
  have hflo : l ≤ ⌊q⌋ := Int.le_floor.mpr h1
  have hfhi : ⌊q⌋ ≤ u := by
    have := Int.floor_mono h2
    rwa [Int.floor_intCast] at this
  have hclo : l ≤ ⌈q⌉ := by
    have := Int.ceil_mono h1
    rwa [Int.ceil_intCast] at this
  have hchi : ⌈q⌉ ≤ u := Int.ceil_le.mpr h2
  split
  · exact ⟨hflo, hfhi⟩
  · exact ⟨hclo, hchi⟩

lemma round_bounds {q : ℚ} {l u : ℤ} (h1 : (l : ℚ) ≤ q) (h2 : q ≤ (u : ℚ)) :
    l ≤ round q ∧ round q ≤ u := by
  rw [round_eq]
  constructor
  · exact Int.le_floor.mpr (by linarith)
  · have hlt : q + 1 / 2 < ((u + 1 : ℤ) : ℚ) := by push_cast; linarith
    exact Int.lt_add_one_iff.mp (Int.floor_lt.mpr hlt)

lemma hsvToRgbSat_valid (h : ℕ) : (hsvToRgbSat h).valid := by
  have hm : (h % 60 : ℕ) < 60 := Nat.mod_lt _ (by norm_num)
  have hf0 : (0 : ℚ) ≤ ((h % 60 : ℕ) : ℚ) / 60 := by positivity
  have hf1 : ((h % 60 : ℕ) : ℚ) / 60 ≤ 1 := by
    rw [div_le_one (by norm_num)]
    exact_mod_cast hm.le
  have ht := round_bounds (l := 0) (u := 255)
    (q := ((h % 60 : ℕ) : ℚ) / 60 * 255) (by positivity) (by nlinarith)
  have hq := round_bounds (l := 0) (u := 255)
    (q := (1 - ((h % 60 : ℕ) : ℚ) / 60) * 255) (by nlinarith) (by nlinarith)
  unfold hsvToRgbSat RGB.valid
  rcases ht with ⟨ht0, ht1⟩
  rcases hq with ⟨hq0, hq1⟩
  split <;> simp_all

lemma pyInt_mul_le {a : ℤ} {f : ℚ} {M : ℤ} (ha0 : 0 ≤ a) (haM : a ≤ M)
    (hf0 : 0 ≤ f) (hf1 : f ≤ 1) :
    0 ≤ pyInt ((a : ℚ) * f) ∧ pyInt ((a : ℚ) * f) ≤ M := by
  have ha0q : (0 : ℚ) ≤ (a : ℚ) := by exact_mod_cast ha0
  have haMq : (a : ℚ) ≤ (M : ℚ) := by exact_mod_cast haM
  exact pyInt_bounds (l := 0) (u := M) (by positivity) (by nlinarith)

lemma renderedColor_valid {c : RGB} {b : ℤ} (hc : c.valid) (hb0 : 0 ≤ b)
    (hb1 : b ≤ 100) : (renderedColor c b).valid := by
  unfold renderedColor
  obtain ⟨hr0, hr1, hg0, hg1, hb0c, hb1c⟩ := hc
  by_cases hz : b = 0
  · simp [hz, RGB.valid]
  · simp only [if_neg hz]
    by_cases hlt : b < 100
    · have hfb0 : (0 : ℚ) ≤ (b : ℚ) / 100 := by positivity
      have hfb1 : (b : ℚ) / 100 ≤ 1 := by
        rw [div_le_one (by norm_num)]
        exact_mod_cast hb1
      have h1 := pyInt_mul_le (a := c.r) (M := 255) hr0 hr1 hfb0 hfb1
      have h2 := pyInt_mul_le (a := c.g) (M := 255) hg0 hg1 hfb0 hfb1
      have h3 := pyInt_mul_le (a := c.b) (M := 255) hb0c hb1c hfb0 hfb1
      simp only [if_pos hlt]
      exact ⟨h1.1, h1.2, h2.1, h2.2, h3.1, h3.2⟩
    · simp only [if_neg hlt]
      exact ⟨hr0, hr1, hg0, hg1, hb0c, hb1c⟩

lemma displayedOk_set_color (k : KeyWidget) {c : RGB} {b : ℤ} (hc : c.valid)
    (hb0 : 0 ≤ b) (hb1 : b ≤ 100) : displayedOk (k.set_color c b) := by
  exact ⟨hb0, hb1, hc, renderedColor_valid hc hb0 hb1⟩

lemma displayedOk_of_valid {k : KeyWidget} (hk : k.valid) : displayedOk k := by
  obtain ⟨_, _, hc, hb0, hb1⟩ := hk
  exact ⟨hb0, hb1, hc, renderedColor_valid hc hb0 hb1⟩

lemma pyIndex_mem {zs : List RGB} {i : ℤ} (h0 : 0 ≤ i) (h4 : i < (zs.length : ℤ)) :
    pyIndex zs i ∈ zs := by
  unfold pyIndex
  rw [if_pos h0]
  have hlt : i.toNat < zs.length := by omega
  rw [List.getD_eq_getElem _ _ hlt]
  exact List.getElem_mem hlt

lemma zone_colors_four {l : List RGB} (h : l.length = 4) :
    ∃ a b c d, l = [a, b, c, d] := by
  rcases l with _ | ⟨a, _ | ⟨b, _ | ⟨c, _ | ⟨d, _ | ⟨e, l⟩⟩⟩⟩⟩ <;>
    simp only [List.length_cons, List.length_nil] at h <;>
    first
      | omega
      | exact ⟨a, b, c, d, rfl⟩

/-- The breathing/zoom oscillation (s+1)/2 lies in [0, 1] for a bounded
sine model. -/
lemma half_shift_bounds {v : ℚ} (h1 : -1 ≤ v) (h2 : v ≤ 1) :
    0 ≤ (v + 1) / 2 ∧ (v + 1) / 2 ≤ 1 := by
  constructor <;> linarith

lemma pyInt_mix_bounds {o bc : ℤ} {sh : ℚ} (ho0 : 0 ≤ o) (ho1 : o ≤ 255)
    (hb0 : 0 ≤ bc) (hb1 : bc ≤ 255) (hs0 : 0 ≤ sh) (hs1 : sh ≤ 1) :
    0 ≤ pyInt ((o : ℚ) * (1 - sh) + (bc : ℚ) * sh) ∧
      pyInt ((o : ℚ) * (1 - sh) + (bc : ℚ) * sh) ≤ 255 := by
  have ho0q : (0 : ℚ) ≤ (o : ℚ) := by exact_mod_cast ho0
  have ho1q : (o : ℚ) ≤ 255 := by exact_mod_cast ho1
  have hb0q : (0 : ℚ) ≤ (bc : ℚ) := by exact_mod_cast hb0
  have hb1q : (bc : ℚ) ≤ 255 := by exact_mod_cast hb1
  refine pyInt_bounds (l := 0) (u := 255) ?_ ?_
  · push_cast
    nlinarith [mul_nonneg ho0q (by linarith : (0 : ℚ) ≤ 1 - sh), mul_nonneg hb0q hs0]
  · push_cast
    nlinarith [mul_nonneg (by linarith : (0 : ℚ) ≤ 255 - (o : ℚ)) (by linarith : (0 : ℚ) ≤ 1 - sh),
      mul_nonneg (by linarith : (0 : ℚ) ≤ 255 - (bc : ℚ)) hs0]

lemma zoomChannel_bounds {zf : ℚ} {c : ℤ} (h0 : 0 ≤ zf) (h1 : zf ≤ 1)
    (hc0 : 0 ≤ c) (hc1 : c ≤ 255) :
    0 ≤ zoomChannel zf c ∧ zoomChannel zf c ≤ 255 := by
  unfold zoomChannel
  have hf0 : (0 : ℚ) ≤ 8 / 10 + 2 / 10 * zf := by linarith
  have hf1 : (8 : ℚ) / 10 + 2 / 10 * zf ≤ 1 := by linarith
  have h := pyInt_mul_le (a := c) (M := 255) hc0 hc1 hf0 hf1
  constructor
  · exact le_min (by norm_num) h.1
  · exact min_le_left _ _

lemma animate_breathing_ok {s : ℚ → ℚ} (hs : sinBounded s) {st : PreviewState}
    (hv : st.valid) : ∀ k ∈ (animate_breathing s st).keys, displayedOk k := by
  obtain ⟨hb0, hb1, hlen, hzc, hkeys⟩ := hv
  intro k hk
  simp only [animate_breathing, List.mem_map] at hk
  obtain ⟨k0, hk0, rfl⟩ := hk
  obtain ⟨hsin1, hsin2⟩ := hs ((st.animation_frame : ℚ) * (1 / 10))
  obtain ⟨hf0, hf1⟩ := half_shift_bounds hsin1 hsin2
  have hbr := pyInt_mul_le (a := st.current_brightness) (M := 100) hb0 hb1 hf0 hf1
  by_cases hg : 0 ≤ k0.zone_id - 1 ∧ k0.zone_id - 1 < 4
  · rw [if_pos hg]
    have hmem : pyIndex st.zone_colors (k0.zone_id - 1) ∈ st.zone_colors :=
      pyIndex_mem hg.1 (by rw [hlen]; exact_mod_cast hg.2)
    exact displayedOk_set_color _ (hzc _ hmem) hbr.1 hbr.2
  · rw [if_neg hg]
    exact displayedOk_of_valid (hkeys _ hk0)

lemma animate_neon_ok {st : PreviewState} (hv : st.valid) :
    ∀ k ∈ (animate_neon st).keys, displayedOk k := by
  obtain ⟨hb0, hb1, _, _, _⟩ := hv
  intro k hk
  simp only [animate_neon, List.mem_map] at hk
  obtain ⟨⟨i, k0⟩, _, rfl⟩ := hk
  exact displayedOk_set_color _ (hsvToRgbSat_valid _) hb0 hb1

lemma animate_wave_ok {s : ℚ → ℚ} (hs : sinBounded s) {st : PreviewState}
    (hv : st.valid) : ∀ k ∈ (animate_wave s st).keys, displayedOk k := by
  obtain ⟨hb0, hb1, _, _, _⟩ := hv
  intro k hk
  simp only [animate_wave, List.mem_map] at hk
  obtain ⟨k0, hk0, rfl⟩ := hk
  obtain ⟨hsin1, hsin2⟩ := hs _
  obtain ⟨hf0, hf1⟩ := half_shift_bounds hsin1 hsin2
  have hbr := pyInt_mul_le (a := st.current_brightness) (M := 100) hb0 hb1 hf0 hf1
  exact displayedOk_set_color _ (hsvToRgbSat_valid _) hbr.1 hbr.2

lemma animate_shifting_ok {s : ℚ → ℚ} (hs : sinBounded s) {st : PreviewState}
    (hv : st.valid) : ∀ k ∈ (animate_shifting s st).keys, displayedOk k := by
  obtain ⟨hb0, hb1, hlen, hzc, _⟩ := hv
  intro k hk
  simp only [animate_shifting, List.mem_map] at hk
  obtain ⟨k0, hk0, rfl⟩ := hk
  obtain ⟨hsin1, hsin2⟩ := hs ((st.animation_frame : ℚ) * (5 / 100))
  have hsh0 : (0 : ℚ) ≤ s ((st.animation_frame : ℚ) * (5 / 100)) * (1 / 2) + 1 / 2 := by linarith
  have hsh1 : s ((st.animation_frame : ℚ) * (5 / 100)) * (1 / 2) + 1 / 2 ≤ 1 := by linarith
  have horig : pyIndex st.zone_colors 0 ∈ st.zone_colors :=
    pyIndex_mem le_rfl (by rw [hlen]; norm_num)
  obtain ⟨ho1, ho2, ho3, ho4, ho5, ho6⟩ := hzc _ horig
  obtain ⟨hh1, hh2, hh3, hh4, hh5, hh6⟩ := hsvToRgbSat_valid ((st.animation_frame * 2) % 360)
  have hr := pyInt_mix_bounds ho1 ho2 hh1 hh2 hsh0 hsh1
  have hg := pyInt_mix_bounds ho3 ho4 hh3 hh4 hsh0 hsh1
  have hb := pyInt_mix_bounds ho5 ho6 hh5 hh6 hsh0 hsh1
  exact displayedOk_set_color _ ⟨hr.1, hr.2, hg.1, hg.2, hb.1, hb.2⟩ hb0 hb1

lemma animate_zoom_ok {s : ℚ → ℚ} (hs : sinBounded s) {st : PreviewState}
    (hv : st.valid) : ∀ k ∈ (animate_zoom s st).keys, displayedOk k := by
  obtain ⟨hb0, hb1, hlen, hzc, hkeys⟩ := hv
  intro k hk
  simp only [animate_zoom, List.mem_map] at hk
  obtain ⟨k0, hk0, rfl⟩ := hk
  obtain ⟨hsin1, hsin2⟩ := hs ((st.animation_frame : ℚ) * (1 / 10))
  obtain ⟨hzf0, hzf1⟩ := half_shift_bounds hsin1 hsin2
  have hfb0 : (0 : ℚ) ≤ 3 / 10 + 7 / 10 * ((s ((st.animation_frame : ℚ) * (1 / 10)) + 1) / 2) := by
    linarith
  have hfb1 : (3 : ℚ) / 10 + 7 / 10 * ((s ((st.animation_frame : ℚ) * (1 / 10)) + 1) / 2) ≤ 1 := by
    linarith
  have hbr := pyInt_mul_le (a := st.current_brightness) (M := 100) hb0 hb1 hfb0 hfb1
  obtain ⟨hz1, hz2, hz3, hz4⟩ := hkeys _ hk0
  have hmem : pyIndex st.zone_colors (k0.zone_id - 1) ∈ st.zone_colors :=
    pyIndex_mem (by omega) (by rw [hlen]; omega)
  obtain ⟨hc1, hc2, hc3, hc4, hc5, hc6⟩ := hzc _ hmem
  have hr := zoomChannel_bounds hzf0 hzf1 hc1 hc2
  have hg := zoomChannel_bounds hzf0 hzf1 hc3 hc4
  have hb := zoomChannel_bounds hzf0 hzf1 hc5 hc6
  exact displayedOk_set_color _ ⟨hr.1, hr.2, hg.1, hg.2, hb.1, hb.2⟩ hbr.1 hbr.2

lemma zeroSin_bounded : sinBounded zeroSin := by
  intro x
  constructor <;> norm_num [zeroSin]

/-- C1: for every mode in {Static, Breathing, Neon, Wave, Shifting, Zoom},
every frame counter value, every base color with channels in 0..255 and
every brightness in 0..100, a delivered tick leaves every key with a
displayed brightness in 0..100 and every displayed color channel (both the
stored color and the rendered background) in 0..255. -/
theorem tick_display_in_range (s : ℚ → ℚ) (st : PreviewState)
    (hs : sinBounded s) (hv : st.valid)
    (hm : st.current_mode = 0 ∨ st.current_mode = 1 ∨ st.current_mode = 2 ∨
      st.current_mode = 3 ∨ st.current_mode = 4 ∨ st.current_mode = 5) :
    ∀ k ∈ (update_animation s st).keys, displayedOk k := by
  have hv1 : PreviewState.valid { st with animation_frame := st.animation_frame + 1 } := hv
  obtain ⟨_, _, _, _, hkeys⟩ := hv
  rcases hm with h | h | h | h | h | h <;>
    simp only [update_animation, h] <;> norm_num
  · exact fun k hk => displayedOk_of_valid (hkeys k hk)
  · exact animate_breathing_ok hs hv1
  · exact animate_neon_ok hv1
  · exact animate_wave_ok hs hv1
  · exact animate_shifting_ok hs hv1
  · exact animate_zoom_ok hs hv1

/-- A small valid Static-mode state, the concrete input of the C1 witness. -/
def stTick : PreviewState :=
  { animation_frame := 3
    current_mode := 0
    current_brightness := 60
    current_speed := 4
    current_direction := 1
    zone_colors := [defaultGreen, defaultGreen, defaultGreen, defaultGreen]
    keys := [⟨2, defaultGreen, 60⟩]
    timer_active := false
    timer_interval := 100 }

theorem tick_display_in_range_witness :
    displayedOk ((update_animation zeroSin stTick).keys.getD 0 ⟨1, defaultGreen, 60⟩) :=
  tick_display_in_range zeroSin stTick zeroSin_bounded (by decide) (by decide) _ (by decide)

/-- An admissible sine model value close to sin(0.5), exhibiting the
truncation-versus-rounding gap of animate_breathing. -/
def badSin : ℚ → ℚ := fun _ => 479 / 1000

/-- A valid breathing-mode state with one key, used as concrete input. -/
def stBreath : PreviewState :=
  { animation_frame := 0
    current_mode := 1
    current_brightness := 100
    current_speed := 5
    current_direction := 1
    zone_colors := [defaultGreen, defaultGreen, defaultGreen, defaultGreen]
    keys := [⟨1, defaultGreen, 100⟩]
    timer_active := true
    timer_interval := 100 }

/-- C2 counterexample: with brightness 100 and a sine value of 0.479 (an
admissible value of math.sin, close to sin at frame 5), the code truncates
100 * 1.479 / 2 = 73.95 to 73, while the claimed round(73.95) is 74. -/
theorem breathing_round_counterexample :
    sinBounded badSin ∧ stBreath.valid ∧ stBreath.current_mode = 1 ∧
    (animate_breathing badSin stBreath).keys.map KeyWidget.brightness = [73] ∧
    round ((stBreath.current_brightness : ℚ) *
      ((badSin ((stBreath.animation_frame : ℚ) * (1 / 10)) + 1) / 2)) = 74 := by
  refine ⟨?_, by decide, by decide, ?_, ?_⟩
  · intro x
    constructor <;> norm_num [badSin]
  · norm_num [animate_breathing, stBreath, badSin, pyInt, pyIndex, defaultGreen,
      KeyWidget.set_color]
  · norm_num [stBreath, badSin, round_eq]

/-- C2 (amended): in Breathing mode, for every frame counter value and
every brightness, every key's displayed brightness equals the Python int()
truncation (the floor, the operand being nonnegative in range) of
brightness * (sin(frame*0.1)+1)/2 - not its rounding - and the displayed
color is the key's zone base color unchanged. -/
theorem breathing_floor_brightness (s : ℚ → ℚ) (st : PreviewState)
    (hz : ∀ k ∈ st.keys, 1 ≤ k.zone_id ∧ k.zone_id ≤ 4) :
    ∀ k ∈ (animate_breathing s st).keys,
      k.brightness =
        pyInt ((st.current_brightness : ℚ) *
          ((s ((st.animation_frame : ℚ) * (1 / 10)) + 1) / 2)) ∧
      k.current_color = pyIndex st.zone_colors (k.zone_id - 1) := by
  intro k hk
  simp only [animate_breathing, List.mem_map] at hk
  obtain ⟨k0, hk0, rfl⟩ := hk
  have hg : 0 ≤ k0.zone_id - 1 ∧ k0.zone_id - 1 < 4 := by
    have := hz k0 hk0
    omega
  rw [if_pos hg]
  exact ⟨rfl, rfl⟩

/-- Witness for the amended C2 at the concrete breathing state. -/
theorem breathing_floor_brightness_witness :
    ((animate_breathing zeroSin stBreath).keys.getD 0 ⟨1, defaultGreen, 100⟩).brightness =
      pyInt ((stBreath.current_brightness : ℚ) *
        ((zeroSin ((stBreath.animation_frame : ℚ) * (1 / 10)) + 1) / 2)) ∧
    ((animate_breathing zeroSin stBreath).keys.getD 0 ⟨1, defaultGreen, 100⟩).current_color =
      pyIndex stBreath.zone_colors
        (((animate_breathing zeroSin stBreath).keys.getD 0 ⟨1, defaultGreen, 100⟩).zone_id - 1) :=
  breathing_floor_brightness zeroSin stBreath (by decide) _
    (by simp [animate_breathing, stBreath])

/-- C3 counterexample: right after construction the widget is animating
(Wave mode, timer armed) with speed 5, yet the timer interval is the fixed
100 ms of start_animation, not max(50, 250 - 5*20) = 150 ms. -/
theorem interval_invariant_counterexample :
    initState.timer_active = true ∧ initState.current_mode = 3 ∧
    initState.current_speed = 5 ∧ initState.timer_interval = 100 ∧
    max 50 (250 - initState.current_speed * 20) = 150 := by
  refine ⟨by decide, by decide, by decide, by decide, by decide⟩

/-- C3 (amended): whenever a speed update is applied while the timer is
armed, the interval becomes max(50, 250 - speed*20); in particular speed 1
gives 230 ms and speed 9 gives 70 ms.  start_animation itself arms the
timer at a fixed 100 ms, so the formula holds only after a speed update,
not at every instant of the Animating state. -/
theorem speed_update_sets_interval (st : PreviewState) (speed : ℤ)
    (h : st.timer_active = true) :
    (update_speed st speed).timer_interval = max 50 (250 - speed * 20) ∧
    (update_speed st 1).timer_interval = 230 ∧
    (update_speed st 9).timer_interval = 70 := by
  unfold update_speed update_animation_speed
  simp only [h, if_pos]
  norm_num

/-- Witness for the amended C3 at the initial state and speed 7. -/
theorem speed_update_sets_interval_witness :
    (update_speed initState 7).timer_interval = max 50 (250 - 7 * 20) ∧
    (update_speed initState 1).timer_interval = 230 ∧
    (update_speed initState 9).timer_interval = 70 :=
  speed_update_sets_interval initState 7 (by decide)

/-- C4 counterexample: the default zone base color at construction is
(50, 255, 50) (the literal the code comments call Acer green), not the
brand green (131, 184, 26). -/
theorem init_defaults_counterexample :
    pyIndex initState.zone_colors 0 = ⟨50, 255, 50⟩ ∧
    (⟨50, 255, 50⟩ : RGB) ≠ ⟨131, 184, 26⟩ := by
  refine ⟨by decide, by decide⟩

/-- C4 (amended): at widget construction the defaults are mode = Wave (3),
brightness = 100, speed = 5, and all four zone base colors equal
(50, 255, 50), not the Acer brand green (131, 184, 26). -/
theorem init_defaults :
    initState.current_mode = 3 ∧ initState.current_brightness = 100 ∧
    initState.current_speed = 5 ∧
    initState.zone_colors = [⟨50, 255, 50⟩, ⟨50, 255, 50⟩, ⟨50, 255, 50⟩, ⟨50, 255, 50⟩] := by
  refine ⟨by decide, by decide, by decide, by decide⟩

/-- A valid Static-mode state with one key, used as concrete input. -/
def stStatic : PreviewState :=
  { animation_frame := 7
    current_mode := 0
    current_brightness := 80
    current_speed := 5
    current_direction := 1
    zone_colors := [defaultGreen, defaultGreen, defaultGreen, defaultGreen]
    keys := [⟨1, defaultGreen, 80⟩]
    timer_active := false
    timer_interval := 100 }

/-- C5 counterexample: in Static mode a delivered tick still advances the
frame counter (from 7 to 8 here), because update_animation increments it
before dispatching on the mode. -/
theorem static_tick_frame_counterexample :
    stStatic.current_mode = 0 ∧ stStatic.animation_frame = 7 ∧
    (update_animation zeroSin stStatic).animation_frame = 8 ∧
    (update_animation zeroSin stStatic).animation_frame ≠ stStatic.animation_frame := by
  refine ⟨by decide, by decide, by decide, by decide⟩

/-- C5 (amended): a delivered tick advances the frame counter in every
mode, Static included; the mode only selects which (if any) key recompute
follows the increment. -/
theorem tick_always_increments (s : ℚ → ℚ) (st : PreviewState) :
    (update_animation s st).animation_frame = st.animation_frame + 1 := by
  unfold update_animation
  dsimp only
  split
  · rfl
  · split
    · rfl
    · split
      · rfl
      · split
        · rfl
        · split
          · rfl
          · rfl

/-- C6: while the mode is Static, a delivered tick - even one erroneously
delivered after the Animating-to-Idle transition - changes no key: every
key's stored color and brightness, hence also every rendered background,
is exactly as before, for every frame counter value. -/
theorem static_tick_keys_unchanged (s : ℚ → ℚ) (st : PreviewState)
    (h : st.current_mode = 0) :
    (update_animation s st).keys = st.keys ∧
    (update_animation s st).keys.map
        (fun k => (renderedColor k.current_color k.brightness, k.brightness)) =
      st.keys.map (fun k => (renderedColor k.current_color k.brightness, k.brightness)) := by
  have hk : (update_animation s st).keys = st.keys := by
    unfold update_animation
    simp [h]
  exact ⟨hk, by rw [hk]⟩

/-- Witness for C6 at the concrete Static state. -/
theorem static_tick_keys_unchanged_witness :
    (update_animation zeroSin stStatic).keys = stStatic.keys ∧
    (update_animation zeroSin stStatic).keys.map
        (fun k => (renderedColor k.current_color k.brightness, k.brightness)) =
      stStatic.keys.map (fun k => (renderedColor k.current_color k.brightness, k.brightness)) :=
  static_tick_keys_unchanged zeroSin stStatic (by decide)

/-- C7: in Wave mode the wave position is (frame - zone_idx*10) mod 100
for direction 1 (right to left) and (frame + zone_idx*10) mod 100 for
direction 2 (left to right); the two coincide at zone index 0, and both
stay in 0..99. -/
theorem wave_pos_spec (f : ℕ) (z : ℤ) (_hz : 0 ≤ z ∧ z ≤ 3) :
    wavePos 1 f z = ((f : ℤ) - z * 10) % 100 ∧
    wavePos 2 f z = ((f : ℤ) + z * 10) % 100 ∧
    wavePos 1 f 0 = wavePos 2 f 0 ∧
    (0 ≤ wavePos 1 f z ∧ wavePos 1 f z < 100) ∧
    (0 ≤ wavePos 2 f z ∧ wavePos 2 f z < 100) := by
  unfold wavePos
  norm_num
  refine ⟨⟨?_, ?_⟩, ?_, ?_⟩ <;>
    first
      | exact Int.emod_nonneg _ (by norm_num)
      | exact Int.emod_lt_of_pos _ (by norm_num)

/-- Witness for C7 at frame 25 and zone index 2. -/
theorem wave_pos_spec_witness :
    wavePos 1 25 2 = ((25 : ℤ) - 2 * 10) % 100 ∧
    wavePos 2 25 2 = ((25 : ℤ) + 2 * 10) % 100 ∧
    wavePos 1 25 0 = wavePos 2 25 0 ∧
    (0 ≤ wavePos 1 25 2 ∧ wavePos 1 25 2 < 100) ∧
    (0 ≤ wavePos 2 25 2 ∧ wavePos 2 25 2 < 100) :=
  wave_pos_spec 25 2 (by norm_num)

/-- C8: in Zoom mode, for every frame counter value (via any bounded sine
model) and every base channel in 0..255, the clamped scaled channel never
exceeds 255; and in the boundary case channel = 255, zoom_factor = 1 it
equals exactly 255. -/
theorem zoom_channel_safe (s : ℚ → ℚ) (f : ℕ) (c : ℤ) (hs : sinBounded s)
    (hc : 0 ≤ c ∧ c ≤ 255) :
    zoomChannel ((s ((f : ℚ) * (1 / 10)) + 1) / 2) c ≤ 255 ∧
    zoomChannel 1 255 = 255 := by
  obtain ⟨h1, h2⟩ := hs ((f : ℚ) * (1 / 10))
  obtain ⟨hf0, hf1⟩ := half_shift_bounds h1 h2
  exact ⟨(zoomChannel_bounds hf0 hf1 hc.1 hc.2).2, by norm_num [zoomChannel, pyInt]⟩

/-- Witness for C8 at the zero sine model, frame 0, channel 131. -/
theorem zoom_channel_safe_witness :
    zoomChannel ((zeroSin ((0 : ℕ) * (1 / 10 : ℚ)) + 1) / 2) 131 ≤ 255 ∧
    zoomChannel 1 255 = 255 :=
  zoom_channel_safe zeroSin 0 131 zeroSin_bounded (by norm_num)

/-- A valid Wave-mode state with nondefault brightness, speed and
direction, used as concrete input for the apply-command claims. -/
def stApply : PreviewState :=
  { animation_frame := 0
    current_mode := 3
    current_brightness := 40
    current_speed := 2
    current_direction := 2
    zone_colors := [defaultGreen, defaultGreen, defaultGreen, defaultGreen]
    keys := [⟨1, defaultGreen, 40⟩]
    timer_active := true
    timer_interval := 210 }

/-- A payload carrying only a mode field. -/
def pOnlyMode : Payload := ⟨some 1, none, none, none, none, none⟩

/-- C9 counterexample: applying a payload that contains only a mode resets
the absent brightness field to its default 100 instead of leaving it at
its previous value 40. -/
theorem apply_absent_field_counterexample :
    stApply.current_brightness = 40 ∧
    (update_from_state stApply pOnlyMode).current_brightness = 100 ∧
    (update_from_state stApply pOnlyMode).current_brightness ≠
      stApply.current_brightness := by
  refine ⟨by decide, by decide, by decide⟩

lemma update_color_fields (st : PreviewState) (c : RGB) :
    (update_color st c).current_mode = st.current_mode ∧
    (update_color st c).current_brightness = st.current_brightness ∧
    (update_color st c).current_speed = st.current_speed ∧
    (update_color st c).current_direction = st.current_direction := by
  unfold update_color update_keys
  split <;> exact ⟨rfl, rfl, rfl, rfl⟩

lemma update_zone_color_fields (st : PreviewState) (z : ℤ) (c : RGB) :
    (update_zone_color st z c).current_mode = st.current_mode ∧
    (update_zone_color st z c).current_brightness = st.current_brightness ∧
    (update_zone_color st z c).current_speed = st.current_speed ∧
    (update_zone_color st z c).current_direction = st.current_direction := by
  unfold update_zone_color update_keys
  split <;> exact ⟨rfl, rfl, rfl, rfl⟩

lemma update_mode_fields (st : PreviewState) (m : ℤ) :
    (update_mode st m).current_mode = m ∧
    (update_mode st m).current_brightness = st.current_brightness ∧
    (update_mode st m).current_speed = st.current_speed ∧
    (update_mode st m).current_direction = st.current_direction := by
  unfold update_mode update_animation_mode start_animation update_keys
  split <;> exact ⟨rfl, rfl, rfl, rfl⟩

lemma update_speed_fields (st : PreviewState) (sp : ℤ) :
    (update_speed st sp).current_mode = st.current_mode ∧
    (update_speed st sp).current_brightness = st.current_brightness ∧
    (update_speed st sp).current_speed = sp ∧
    (update_speed st sp).current_direction = st.current_direction := by
  unfold update_speed update_animation_speed
  split <;> exact ⟨rfl, rfl, rfl, rfl⟩

lemma apply_tail_mode (s2 : PreviewState) :
    (update_speed (update_mode s2 s2.current_mode)
      (update_mode s2 s2.current_mode).current_speed).current_mode = s2.current_mode := by
  rw [(update_speed_fields _ _).1, (update_mode_fields _ _).1]

lemma apply_tail_brightness (s2 : PreviewState) :
    (update_speed (update_mode s2 s2.current_mode)
      (update_mode s2 s2.current_mode).current_speed).current_brightness =
      s2.current_brightness := by
  rw [(update_speed_fields _ _).2.1, (update_mode_fields _ _).2.1]

lemma apply_tail_speed (s2 : PreviewState) :
    (update_speed (update_mode s2 s2.current_mode)
      (update_mode s2 s2.current_mode).current_speed).current_speed = s2.current_speed := by
  rw [(update_speed_fields _ _).2.2.1, (update_mode_fields _ _).2.2.1]

lemma apply_tail_direction (s2 : PreviewState) :
    (update_speed (update_mode s2 s2.current_mode)
      (update_mode s2 s2.current_mode).current_speed).current_direction =
      s2.current_direction := by
  rw [(update_speed_fields _ _).2.2.2, (update_mode_fields _ _).2.2.2]

lemma update_mode_zone_colors (st : PreviewState) (m : ℤ) :
    (update_mode st m).zone_colors = st.zone_colors := by
  unfold update_mode update_animation_mode start_animation update_keys
  split <;> rfl

lemma update_speed_zone_colors (st : PreviewState) (sp : ℤ) :
    (update_speed st sp).zone_colors = st.zone_colors := by
  unfold update_speed update_animation_speed
  split <;> rfl

lemma apply_tail_zone_colors (s2 : PreviewState) :
    (update_speed (update_mode s2 s2.current_mode)
      (update_mode s2 s2.current_mode).current_speed).zone_colors = s2.zone_colors := by
  rw [update_speed_zone_colors, update_mode_zone_colors]

lemma route_zone_colors_static (s1 : PreviewState) (z : ℤ) (c : RGB)
    (h0 : s1.current_mode = 0) (hz : 1 ≤ z ∧ z ≤ 4) :
    (if s1.current_mode = 0 then update_zone_color s1 z c
      else update_color s1 c).zone_colors = s1.zone_colors.set (z - 1).toNat c := by
  rw [if_pos h0]
  unfold update_zone_color update_keys
  rw [if_pos hz]

lemma route_zone_colors_colorful (s1 : PreviewState) (z : ℤ) (c : RGB)
    (hm : s1.current_mode = 1 ∨ s1.current_mode = 4 ∨ s1.current_mode = 5)
    (hlen : s1.zone_colors.length = 4) :
    (if s1.current_mode = 0 then update_zone_color s1 z c
      else update_color s1 c).zone_colors = [c, c, c, c] := by
  have h0 : ¬s1.current_mode = 0 := by rcases hm with h | h | h <;> omega
  rw [if_neg h0]
  unfold update_color update_keys
  rw [if_pos (by tauto)]
  obtain ⟨a, b, d, e, hzs⟩ := zone_colors_four hlen
  simp [hzs, List.set]

lemma route_zone_colors_noop (s1 : PreviewState) (z : ℤ) (c : RGB)
    (hm : s1.current_mode = 2 ∨ s1.current_mode = 3) :
    (if s1.current_mode = 0 then update_zone_color s1 z c
      else update_color s1 c).zone_colors = s1.zone_colors := by
  have h0 : ¬s1.current_mode = 0 := by rcases hm with h | h <;> omega
  rw [if_neg h0]
  unfold update_color
  rw [if_neg (by rcases hm with h | h <;> simp [h])]

/-- C9 (amended): an apply command sets each scalar AnimationState field
(mode, brightness, speed, direction) to the payload value when present and
resets it to a fixed default (mode 3, brightness 100, speed 5, direction 1)
when absent - absent scalar fields are reset, not left unchanged.  The
payload color (default (50, 255, 50) when absent) is routed by the
resulting mode: in Static mode it overwrites the single payload zone
(default zone 1, when that zone is in 1..4); in Breathing, Shifting or
Zoom it overwrites all four zone colors; and in Neon or Wave update_color
is a no-op, so the zone colors are left unchanged at their previous
values. -/
theorem update_from_state_fields (st : PreviewState) (p : Payload)
    (hlen : st.zone_colors.length = 4) :
    (update_from_state st p).current_mode = p.mode.getD 3 ∧
    (update_from_state st p).current_brightness = p.brightness.getD 100 ∧
    (update_from_state st p).current_speed = p.speed.getD 5 ∧
    (update_from_state st p).current_direction = p.direction.getD 1 ∧
    (p.mode.getD 3 = 0 → 1 ≤ p.zone.getD 1 → p.zone.getD 1 ≤ 4 →
      (update_from_state st p).zone_colors =
        st.zone_colors.set (p.zone.getD 1 - 1).toNat (p.color.getD defaultGreen)) ∧
    ((p.mode.getD 3 = 1 ∨ p.mode.getD 3 = 4 ∨ p.mode.getD 3 = 5) →
      (update_from_state st p).zone_colors =
        [p.color.getD defaultGreen, p.color.getD defaultGreen,
         p.color.getD defaultGreen, p.color.getD defaultGreen]) ∧
    ((p.mode.getD 3 = 2 ∨ p.mode.getD 3 = 3) →
      (update_from_state st p).zone_colors = st.zone_colors) := by
  unfold update_from_state
  dsimp only
  refine ⟨?_, ?_, ?_, ?_, ?_, ?_, ?_⟩
  · rw [apply_tail_mode]
    split
    · rw [(update_zone_color_fields _ _ _).1]
    · rw [(update_color_fields _ _).1]
  · rw [apply_tail_brightness]
    split
    · rw [(update_zone_color_fields _ _ _).2.1]
    · rw [(update_color_fields _ _).2.1]
  · rw [apply_tail_speed]
    split
    · rw [(update_zone_color_fields _ _ _).2.2.1]
    · rw [(update_color_fields _ _).2.2.1]
  · rw [apply_tail_direction]
    split
    · rw [(update_zone_color_fields _ _ _).2.2.2]
    · rw [(update_color_fields _ _).2.2.2]
  · intro h0 hz1 hz4
    rw [apply_tail_zone_colors]
    exact route_zone_colors_static
      { st with
        current_mode := p.mode.getD 3
        current_brightness := p.brightness.getD 100
        current_speed := p.speed.getD 5
        current_direction := p.direction.getD 1 }
      (p.zone.getD 1) (p.color.getD defaultGreen) h0 ⟨hz1, hz4⟩
  · intro hm
    rw [apply_tail_zone_colors]
    exact route_zone_colors_colorful
      { st with
        current_mode := p.mode.getD 3
        current_brightness := p.brightness.getD 100
        current_speed := p.speed.getD 5
        current_direction := p.direction.getD 1 }
      (p.zone.getD 1) (p.color.getD defaultGreen) hm hlen
  · intro hm
    rw [apply_tail_zone_colors]
    exact route_zone_colors_noop
      { st with
        current_mode := p.mode.getD 3
        current_brightness := p.brightness.getD 100
        current_speed := p.speed.getD 5
        current_direction := p.direction.getD 1 }
      (p.zone.getD 1) (p.color.getD defaultGreen) hm

/-- Witness for the amended C9: a payload carrying only mode 1 applied to
the concrete Wave-mode state with brightness 40. -/
theorem update_from_state_fields_witness :
    (update_from_state stApply pOnlyMode).current_mode = pOnlyMode.mode.getD 3 ∧
    (update_from_state stApply pOnlyMode).current_brightness =
      pOnlyMode.brightness.getD 100 ∧
    (update_from_state stApply pOnlyMode).current_speed = pOnlyMode.speed.getD 5 ∧
    (update_from_state stApply pOnlyMode).current_direction =
      pOnlyMode.direction.getD 1 ∧
    (pOnlyMode.mode.getD 3 = 0 → 1 ≤ pOnlyMode.zone.getD 1 → pOnlyMode.zone.getD 1 ≤ 4 →
      (update_from_state stApply pOnlyMode).zone_colors =
        stApply.zone_colors.set (pOnlyMode.zone.getD 1 - 1).toNat
          (pOnlyMode.color.getD defaultGreen)) ∧
    ((pOnlyMode.mode.getD 3 = 1 ∨ pOnlyMode.mode.getD 3 = 4 ∨ pOnlyMode.mode.getD 3 = 5) →
      (update_from_state stApply pOnlyMode).zone_colors =
        [pOnlyMode.color.getD defaultGreen, pOnlyMode.color.getD defaultGreen,
         pOnlyMode.color.getD defaultGreen, pOnlyMode.color.getD defaultGreen]) ∧
    ((pOnlyMode.mode.getD 3 = 2 ∨ pOnlyMode.mode.getD 3 = 3) →
      (update_from_state stApply pOnlyMode).zone_colors = stApply.zone_colors) :=
  update_from_state_fields stApply pOnlyMode (by decide)

/-- C10: when the active mode is Neon (2) or Wave (3), update_color is a
no-op on the whole state - zone base colors and displayed keys included -
while the color-capable modes Static (0), Breathing (1), Shifting (4) and
Zoom (5) overwrite all four zone colors. -/
theorem update_color_mode_gate (st : PreviewState) (c : RGB)
    (hlen : st.zone_colors.length = 4) :
    ((st.current_mode = 2 ∨ st.current_mode = 3) → update_color st c = st) ∧
    ((st.current_mode = 0 ∨ st.current_mode = 1 ∨ st.current_mode = 4 ∨ st.current_mode = 5) →
      (update_color st c).zone_colors = [c, c, c, c]) := by
  constructor
  · intro h
    unfold update_color
    have hng : ¬(st.current_mode = 0 ∨ st.current_mode = 1 ∨ st.current_mode = 4 ∨
        st.current_mode = 5) := by
      rcases h with h | h <;> simp [h]
    rw [if_neg hng]
  · intro h
    obtain ⟨a, b, d, e, hzs⟩ := zone_colors_four hlen
    unfold update_color update_keys
    rw [if_pos h]
    simp [hzs, List.set]

/-- Witness for C10 at the concrete Wave-mode state. -/
theorem update_color_mode_gate_witness :
    ((stApply.current_mode = 2 ∨ stApply.current_mode = 3) →
      update_color stApply defaultGreen = stApply) ∧
    ((stApply.current_mode = 0 ∨ stApply.current_mode = 1 ∨ stApply.current_mode = 4 ∨
        stApply.current_mode = 5) →
      (update_color stApply defaultGreen).zone_colors =
        [defaultGreen, defaultGreen, defaultGreen, defaultGreen]) :=
  update_color_mode_gate stApply defaultGreen (by decide)

end KeyboardPreview
